import Mathlib

/-!
Verification of the dyndep model+builder subsystem (builder.py,
content_builder.py, models.py, service.py) against its specification.

The Python code is shallowly embedded: JSON values become the inductive
type `JVal`, Python dicts become association lists, exceptions become
`Except String`, and `None`-returning recoverable failures become
`Option`.  String-typed fields follow the type annotations of the
dataclasses in models.py (`uuid: str`, `name: str`,
`dependencies: List[str]`).
-/

namespace DynDep

/-- Model of a parsed JSON value (json.loads output).  Numeric and boolean
leaves do not occur in any field the subsystem reads, so they are not
modelled. -/
inductive JVal where
  | str : String → JVal
  | arr : List JVal → JVal
  | obj : List (String × JVal) → JVal
  | null : JVal
deriving Repr

/-- Model of a Python dict with string keys: an association list with unique
keys, in insertion order. -/
abbrev Record := List (String × JVal)

/-- Model of `d.get(k)` / `d[k]` presence: first (unique) matching key. -/
def dictGet : List (String × α) → String → Option α
  | [], _ => none
  | (k', v) :: rest, k => if k' = k then some v else dictGet rest k

/-- Model of `d[k] = v` on a dict: replace an existing key in place,
otherwise append. -/
def dictInsert : List (String × α) → String → α → List (String × α)
  | [], k, v => [(k, v)]
  | (k', v') :: rest, k, v =>
      if k' = k then (k, v) :: rest else (k', v') :: dictInsert rest k v

def JVal.asStr : JVal → Option String
  | .str s => some s
  | _ => none

/-- Model of `content.get(key, default)` where the field is used as `str`. -/
def getStrD (r : Record) (k d : String) : String :=
  ((dictGet r k).bind JVal.asStr).getD d

/-- Model of `len(v)` in Python: strings, lists and dicts have a length,
`None` raises TypeError. -/
def pyLen : JVal → Except String Nat
  | .str s => .ok s.length
  | .arr vs => .ok vs.length
  | .obj fs => .ok fs.length
  | .null => .error "TypeError: object of type NoneType has no len()"

/-- Model of `for x in v` in Python: a string iterates its characters, a
list its elements, a dict its keys; `None` raises TypeError. -/
def pyIter : JVal → Except String (List JVal)
  | .str s => .ok (s.data.map (fun ch => JVal.str (String.mk [ch])))
  | .arr vs => .ok vs
  | .obj fs => .ok (fs.map (fun kv => JVal.str kv.1))
  | .null => .error "TypeError: NoneType object is not iterable"

/-- Bool-valued test that `needle` starts the list `hay`. -/
def listStarts (needle hay : List Char) : Bool :=
  match needle, hay with
  | [], _ => true
  | _ :: _, [] => false
  | x :: xs, y :: ys => x == y && listStarts xs ys

/-- Bool-valued test that `needle` occurs contiguously inside `hay`. -/
def listContains (needle : List Char) : List Char → Bool
  | [] => listStarts needle []
  | y :: ys => listStarts needle (y :: ys) || listContains needle ys

/-- Model of `x in v` for a string x: list membership (equality holds only
against string elements), substring test on a string, key membership on a
dict, TypeError on `None`. -/
def pyInStr (s : String) : JVal → Except String Bool
  | .arr vs => .ok (vs.any (fun v =>
      match v with
      | .str t => t == s
      | _ => false))
  | .str t => .ok (listContains s.data t.data)
  | .obj fs => .ok (fs.any (fun kv => kv.1 == s))
  | .null => .error "TypeError: argument of type NoneType is not iterable"

/-- Explicit-recursion replacement for mapM over Except, easing induction. -/
def mapE (f : α → Except ε β) : List α → Except ε (List β)
  | [] => .ok []
  | x :: xs => do
      let y ← f x
      let ys ← mapE f xs
      .ok (y :: ys)

/-- Explicit-recursion replacement for foldlM over Except. -/
def foldE (f : σ → α → Except ε σ) : σ → List α → Except ε σ
  | s, [] => .ok s
  | s, x :: xs => do
      let s' ← f s x
      foldE f s' xs

/-! ### content_builder.py: field helpers -/

/-- Embeds `get_node_id` (content_builder.py line 9): `content["Id"]`
raises KeyError when the key is absent, and an explicit Exception when the
value is None.  Both abort the build, so both are `.error`; the value is
typed `str` per its use as a dict key and `uuid`. -/
def get_node_id (content : Record) : Except String String :=
  match dictGet content "Id" with
  | some (JVal.str i) => .ok i
  | _ => .error "content has no ID"

/-- Embeds `get_node_name` (content_builder.py line 16):
`content.get("Name", None)` with an Exception when missing or None. -/
def get_node_name (content : Record) : Except String String :=
  match dictGet content "Name" with
  | some (JVal.str n) => .ok n
  | _ => .error "Content has no Name"

/-- Embeds `_get_node_type`: `content.get("NodeType", "NO NODE TYPE")`. -/
def _get_node_type (content : Record) : String :=
  getStrD content "NodeType" "NO NODE TYPE"

/-- Embeds `_get_concrete_type`:
`content.get("ConcreteType", "NO CONCRETE TYPE")`. -/
def _get_concrete_type (content : Record) : String :=
  getStrD content "ConcreteType" "NO CONCRETE TYPE"

/-! ### content_builder.py: GUID_PATTERN -/

/-- Consumes exactly n characters from the `[a-zA-Z0-9]` class, returning
the rest of the input. -/
def alnumRun : Nat → List Char → Option (List Char)
  | 0, cs => some cs
  | _ + 1, [] => none
  | n + 1, c :: cs => if c.isAlphanum then alnumRun n cs else none

/-- Consumes one literal dash character. -/
def dashThen : List Char → Option (List Char)
  | [] => none
  | c :: cs => if c = '-' then some cs else none

/-- Embeds `GUID_PATTERN.match(s) is not None` (content_builder.py line
109).  The pattern is
`([a-zA-Z0-9]{8})-([a-zA-Z0-9]{4})-([a-zA-Z0-9]{4})-([a-zA-Z0-9]{4})-([a-zA-Z0-9]{12})`
and `re.match` anchors only at the start of the string, so any trailing
characters after the five groups are accepted. -/
def guidMatch (s : String) : Bool :=
  (alnumRun 8 s.data |>.bind dashThen |>.bind (alnumRun 4) |>.bind dashThen
    |>.bind (alnumRun 4) |>.bind dashThen |>.bind (alnumRun 4)
    |>.bind dashThen |>.bind (alnumRun 12)).isSome

/-! ### content_builder.py: node builder registry -/

/-- Values appearing in a builder `lookup()` dict: plain strings, or the
compiled GUID_PATTERN regular expression. -/
inductive LVal where
  | s : String → LVal
  | pat : LVal
deriving DecidableEq, Repr

/-- The three concrete NodeBuilder subclasses of content_builder.py. -/
inductive BuilderKind where
  | defaultNode
  | codeNode
  | customNode
deriving DecidableEq, Repr

def pythonConcreteType : String := "PythonNodeModels.PythonNode, PythonNodeModels"

def customConcreteType : String := "Dynamo.Graph.Nodes.CustomNodes.Function, DynamoCore"

/-- Embeds the `lookup()` classmethod of each builder. -/
def lookupOf : BuilderKind → List (String × LVal)
  | .defaultNode => [("ConcreteType", .s ""), ("NodeType", .s "")]
  | .codeNode =>
      [("ConcreteType", .s pythonConcreteType), ("NodeType", .s "PythonScriptNode")]
  | .customNode =>
      [("ConcreteType", .s customConcreteType), ("FunctionType", .s "Graph"),
       ("FunctionSignature", .pat)]

/-- Model of `content.get(key, None) == value` for a string value: Python
equality between a string and None, a list or a dict is False. -/
def fieldEqStr (r : Record) (k v : String) : Bool :=
  match dictGet r k with
  | some (JVal.str s) => s == v
  | _ => false

/-- Embeds `is_node_value` of each builder class.  The base class and
CodeNodeBuilder compare `content.get(key, None) == value`;
DefaultNodeBuilder overrides it to `key in content`; CustomNodeBuilder
applies `value.match(content_value)` when the lookup value is a compiled
pattern, which raises TypeError when the field is absent (None) or not a
string. -/
def is_node_value (b : BuilderKind) (content : Record) (key : String)
    (value : LVal) : Except String Bool :=
  match b with
  | .defaultNode => .ok (dictGet content key).isSome
  | .codeNode =>
      match value with
      | .s v => .ok (fieldEqStr content key v)
      | .pat => .ok false
  | .customNode =>
      match value with
      | .s v => .ok (fieldEqStr content key v)
      | .pat =>
          match dictGet content key with
          | some (JVal.str s) => .ok (guidMatch s)
          | _ => .error "TypeError: expected string or bytes-like object"

/-- Embeds the short-circuiting `all(...)` generator inside
`is_builder_for`. -/
def allChecks (b : BuilderKind) (content : Record) :
    List (String × LVal) → Except String Bool
  | [] => .ok true
  | (k, v) :: rest =>
      match is_node_value b content k v with
      | .error e => .error e
      | .ok false => .ok false
      | .ok true => allChecks b content rest

/-- Embeds `is_builder_for` (content_builder.py line 49). -/
def is_builder_for (b : BuilderKind) (content : Record) : Except String Bool :=
  allChecks b content (lookupOf b)

/-- Embeds `len(val) == 0` inside `_is_default`: a compiled pattern has no
`len`, raising TypeError. -/
def lvalLenZero : LVal → Except String Bool
  | .s v => .ok (decide (v.length = 0))
  | .pat => .error "TypeError: object of type re.Pattern has no len()"

/-- Embeds the short-circuiting `all(len(val) == 0 ...)` in `_is_default`
(content_builder.py line 145). -/
def allLenZero : List (String × LVal) → Except String Bool
  | [] => .ok true
  | (_, v) :: rest =>
      match lvalLenZero v with
      | .error e => .error e
      | .ok false => .ok false
      | .ok true => allLenZero rest

def _is_default (b : BuilderKind) : Except String Bool :=
  allLenZero (lookupOf b)

/-- The concrete non-abstract NodeBuilder subclasses collected by
`_create_builder` from module globals, in definition order
(DefaultNodeBuilder, CodeNodeBuilder, CustomNodeBuilder). -/
def discovered : List BuilderKind :=
  [.defaultNode, .codeNode, .customNode]

/-- Embeds `_ensure_default_is_last` (content_builder.py line 151): the
unique default builder is moved to the end; zero or several default
builders raise. -/
def _ensure_default_is_last (builders : List BuilderKind) :
    Except String (List BuilderKind) := do
  let flagged ← mapE (fun b => do
    let d ← _is_default b
    pure (b, d)) builders
  let defaults := (flagged.filter (fun p => p.2)).map (fun p => p.1)
  if defaults.length = 1 then
    .ok ((flagged.filter (fun p => !p.2)).map (fun p => p.1) ++ defaults)
  else
    .error "Zero or more then one default builder found."

/-- Embeds `_create_builder` (content_builder.py line 169). -/
def _create_builder : Except String (List BuilderKind) :=
  _ensure_default_is_last discovered

/-- Embeds the first-match loop of `node_builder` (content_builder.py line
185). -/
def firstBuilder (content : Record) : List BuilderKind → Except String BuilderKind
  | [] => .error "No builder found for content"
  | b :: rest =>
      match is_builder_for b content with
      | .error e => .error e
      | .ok true => .ok b
      | .ok false => firstBuilder content rest

/-- Embeds `node_builder` (content_builder.py line 185). -/
def node_builder (content : Record) : Except String BuilderKind := do
  let bs ← _create_builder
  firstBuilder content bs

/-! ### models.py: node entities

The `group` back-reference that `Annotation.__post_init__` patches into its
member nodes is not observed by any claim and is left out: modelling it
faithfully would require an object graph with aliasing, while every claim
reads only value fields that are never mutated after construction. -/

/-- Embeds the Package dataclass (models.py line 48). -/
structure Package where
  name : String
  version : String
deriving Repr

/-- Embeds `Package.default()`. -/
def Package.defaultPackage : Package := ⟨"DEFAULT", "0.0.0"⟩

/-- Fields shared by every DynamoNode (models.py BaseNode and DynamoNode):
the content payload `{"Node": ..., "View": ...}` built by
`_get_node_content` is kept as the pair of its two entries. -/
structure NodeBase where
  uuid : String
  name : String
  contentNode : Record
  contentView : Option Record
  node_type : String
  concrete_type : String
deriving Repr

/-- Embeds the DynamoNode variants of models.py: DynamoNode itself (built
by DefaultNodeBuilder), PythonCodeNode and CustomNode. -/
inductive DynamoNode where
  | plain (base : NodeBase)
  | python (base : NodeBase) (code : String) (engine : String)
  | custom (base : NodeBase) (custom_uuid : String) (package : Package)
deriving Repr

def DynamoNode.base : DynamoNode → NodeBase
  | .plain b => b
  | .python b _ _ => b
  | .custom b _ _ => b

def DynamoNode.uuid (n : DynamoNode) : String := n.base.uuid

def DynamoNode.customUuid? : DynamoNode → Option String
  | .custom _ cu _ => some cu
  | _ => none

/-- Embeds the Annotation dataclass (models.py line 27): uuid, name (the
raw `Title` value, stored as-is by the source), raw content, member
nodes. -/
structure AnnotationGroup where
  uuid : String
  name : JVal
  content : Record
  nodes : List DynamoNode
deriving Repr

/-! ### content_builder.py: build methods -/

/-- Embeds `NodeBuilder._node_id` (content_builder.py line 52). -/
def _node_id (content : Record) (views : List (String × Record)) :
    Except String String := do
  let nid ← get_node_id content
  match dictGet views nid with
  | some _ => .ok nid
  | none => .error ("No Node View for " ++ nid)

/-- Common part of every `build` method: node id with view check, name
taken from the view record, content payload, type tags.  Factored out of
the three builds, which repeat it verbatim in the source. -/
def buildBase (content : Record) (views : List (String × Record)) :
    Except String NodeBase := do
  let nid ← _node_id content views
  let view := (dictGet views nid).getD []
  let nm ← get_node_name view
  .ok { uuid := nid, name := nm, contentNode := content,
        contentView := dictGet views nid,
        node_type := _get_node_type content,
        concrete_type := _get_concrete_type content }

/-- Embeds the `build` method of each builder class.  CodeNodeBuilder reads
`node["Code"]` (KeyError when absent) and `node.get("Engine",
"IronPython2")`; CustomNodeBuilder reads `node["FunctionSignature"]` and
starts with the default package. -/
def buildWith (b : BuilderKind) (content : Record)
    (views : List (String × Record)) : Except String DynamoNode := do
  let base ← buildBase content views
  match b with
  | .defaultNode => .ok (.plain base)
  | .codeNode =>
      match dictGet content "Code" with
      | some (JVal.str code) =>
          .ok (.python base code (getStrD content "Engine" "IronPython2"))
      | _ => .error "KeyError: Code"
  | .customNode =>
      match dictGet content "FunctionSignature" with
      | some (JVal.str sig) => .ok (.custom base sig Package.defaultPackage)
      | _ => .error "KeyError: FunctionSignature"

/-- Embeds `AnnotationBuilder.build` together with `_group_nodes`
(content_builder.py line 194): member nodes are those whose uuid is in the
`Nodes` entry of the group content; `content["Title"]` raises KeyError
when absent and is stored raw otherwise. -/
def annotationBuild (v : JVal) (nodes : List DynamoNode) :
    Except String AnnotationGroup :=
  match v with
  | JVal.obj c => do
      let uid ← get_node_id c
      match dictGet c "Title" with
      | some t => do
          let gids := (dictGet c "Nodes").getD (JVal.arr [])
          let memNodes ← foldE (fun acc n => do
            let b ← pyInStr n.uuid gids
            pure (if b then acc ++ [n] else acc)) [] nodes
          .ok ⟨uid, t, c, memNodes⟩
      | none => .error "KeyError: Title"
  | _ => .error "TypeError: group record is not a mapping"

/-- Embeds `PackageBuilder.is_builder_for` (content_builder.py line 226). -/
def packageIsBuilderFor (c : Record) : Bool :=
  fieldEqStr c "ReferenceType" "Package"

/-- Embeds `PackageBuilder.build` (content_builder.py line 229):
`content["Version"]` raises KeyError when absent. -/
def packageBuild (c : Record) : Except String Package := do
  let n ← get_node_name c
  match dictGet c "Version" with
  | some (JVal.str v) => .ok ⟨n, v⟩
  | _ => .error "KeyError: Version"

/-- Embeds `PackageBuilder.get_node_ids`: `content.get("Nodes", [])`, with
the elements read at their declared type `str`. -/
def packageGetNodeIds (c : Record) : List String :=
  match dictGet c "Nodes" with
  | some (JVal.arr vs) => vs.filterMap JVal.asStr
  | _ => []

/-! ### builder.py: per-document extraction -/

/-- Embeds `_get_packages` (builder.py line 23): a node-id to Package dict,
later entries overwriting earlier ones. -/
def _get_packages (c : Record) : Except String (List (String × Package)) := do
  let entries ← pyIter ((dictGet c "NodeLibraryDependencies").getD (JVal.arr []))
  foldE (fun d v =>
    match v with
    | JVal.obj r =>
        if packageIsBuilderFor r then do
          let pkg ← packageBuild r
          pure ((packageGetNodeIds r).foldl (fun d' nid => dictInsert d' nid pkg) d)
        else
          pure d
    | _ => .error "AttributeError: package record is not a mapping") [] entries

/-- Embeds `_get_node_view_dict` (builder.py line 36): a node-id to view
dict over `View.NodeViews`; a present but non-dict `View` value raises
(None has no `.get`). -/
def _get_node_view_dict (c : Record) : Except String (List (String × Record)) := do
  let viewsV ← match dictGet c "View" with
    | none => pure (JVal.arr [])
    | some (JVal.obj o) => pure ((dictGet o "NodeViews").getD (JVal.arr []))
    | some _ => Except.error "AttributeError: View value has no attribute get"
  let views ← pyIter viewsV
  foldE (fun d v =>
    match v with
    | JVal.obj r => do
        let nid ← get_node_id r
        pure (dictInsert d nid r)
    | _ => .error "TypeError: view record is not a mapping") [] views

/-- Embeds `_add_package` (builder.py line 44). -/
def _add_package (n : DynamoNode) (packages : List (String × Package)) :
    DynamoNode :=
  match n with
  | .custom base cu _ =>
      match dictGet packages base.uuid with
      | some p => .custom base cu p
      | none => n
  | _ => n

/-- Embeds `_get_nodes` (builder.py line 50): returns `[]` when the
document has no top-level `View` key, otherwise classifies and builds
every entry of `Nodes` and overlays package data. -/
def _get_nodes (c : Record) : Except String (List DynamoNode) :=
  if (dictGet c "View").isNone then .ok []
  else do
    let views ← _get_node_view_dict c
    let packages ← _get_packages c
    let entries ← pyIter ((dictGet c "Nodes").getD (JVal.arr []))
    mapE (fun v =>
      match v with
      | JVal.obj r => do
          let b ← node_builder r
          let node ← buildWith b r views
          pure (_add_package node packages)
      | _ => .error "AttributeError: node record is not a mapping") entries

/-- Embeds `_get_groups` (builder.py line 64): reads the top-level
`Annotations` entry, returns `[]` when it has length zero, and otherwise
builds every group. -/
def _get_groups (c : Record) (nodes : List DynamoNode) :
    Except String (List AnnotationGroup) := do
  let groupsV := (dictGet c "Annotations").getD (JVal.arr [])
  let n ← pyLen groupsV
  if n = 0 then .ok []
  else do
    let items ← pyIter groupsV
    mapE (fun g => annotationBuild g nodes) items

/-- Embeds `_node_dependencies` (builder.py line 72):
`content.get("Dependencies", [])` read at its declared type `List[str]`. -/
def _node_dependencies (c : Record) : List String :=
  match dictGet c "Dependencies" with
  | some (JVal.arr vs) => vs.filterMap JVal.asStr
  | _ => []

/-- Splits a character list on the dot separator, like
`str.split(".")` in Python for a one-character separator. -/
def splitDotAux : List Char → List Char → List String
  | [], acc => [String.mk acc.reverse]
  | c :: cs, acc =>
      if c = '.' then String.mk acc.reverse :: splitDotAux cs []
      else splitDotAux cs (c :: acc)

/-- Embeds `category.split(".")`. -/
def splitOnDot (s : String) : List String := splitDotAux s.data []

/-- Embeds `_custom_categories` (builder.py line 77):
`content.get("Category", "")` read at its declared type `str`, split on
dots when non-empty. -/
def _custom_categories (c : Record) : List String :=
  match dictGet c "Category" with
  | some (JVal.str s) => if s.length = 0 then [] else splitOnDot s
  | _ => []

/-- Embeds `_file_node_uuid` (builder.py line 16): raises when the
top-level `Uuid` is absent or None. -/
def _file_node_uuid (c : Record) : Except String String :=
  match dictGet c "Uuid" with
  | some (JVal.str u) => .ok u
  | _ => .error "Content has no UUID"

/-! ### models.py: file entities -/

/-- Embeds the DynFile protocol (models.py line 6).  `content` is the
result of `json.loads(file.getvalue())` in `_get_file_content`:
`none` stands for a JSONDecodeError, `some` for a parsed top-level
object. -/
structure DynFile where
  file_id : String
  name : String
  type : String
  content : Option Record
deriving Repr

/-- Embeds `_get_file_content` (builder.py line 8): returns None on
malformed JSON (after logging), the parsed document otherwise. -/
def _get_file_content (f : DynFile) : Option Record := f.content

/-- Projection of a DynamoFile as stored in a `used_in` list.  The source
stores object references; the only fields those references are ever read
for are the class tag and uuid (dataclass equality: `compare=True` is set
only on `uuid`), the name (sort key of `node_used_in`) and the dependency
list — none of which is mutated after construction, so the projection is
faithful. -/
structure FileInfo where
  isCustomFile : Bool
  uuid : String
  name : String
  dependencies : List String
deriving Repr

/-- Embeds dataclass equality of DynamoFile objects: same concrete class
and equal uuid (every other field is declared `compare=False`). -/
def fileEq (a b : FileInfo) : Bool :=
  a.isCustomFile == b.isCustomFile && a.uuid == b.uuid

/-- Embeds the ScriptFile dataclass (models.py line 134). -/
structure ScriptFile where
  uuid : String
  name : String
  file : DynFile
  nodes : List DynamoNode
  dependencies : List String
  groups : List AnnotationGroup
deriving Repr

/-- Embeds the CustomNodeFile dataclass (models.py line 114). -/
structure CustomNodeFile where
  uuid : String
  name : String
  file : DynFile
  nodes : List DynamoNode
  dependencies : List String
  groups : List AnnotationGroup
  categories : List String
  used_in : List FileInfo
deriving Repr

def ScriptFile.info (s : ScriptFile) : FileInfo :=
  ⟨false, s.uuid, s.name, s.dependencies⟩

def CustomNodeFile.info (c : CustomNodeFile) : FileInfo :=
  ⟨true, c.uuid, c.name, c.dependencies⟩

/-- Embeds `CustomNodeFile.add_used_in` (models.py line 118): keep the
candidates that declare a dependency on this uuid, drop those already
present (Python `in`, i.e. dataclass equality), and extend. -/
def CustomNodeFile.add_used_in (self : CustomNodeFile)
    (nodes : List FileInfo) : CustomNodeFile :=
  let ns := nodes.filter (fun n => n.dependencies.contains self.uuid)
  let ns := ns.filter (fun n => !self.used_in.any (fun u => fileEq u n))
  if ns.length = 0 then self
  else { self with used_in := self.used_in ++ ns }

/-- Embeds `CustomNodeFile.node_used_in` (models.py line 129):
`sorted(self.used_in, key=lambda ele: ele.name)`.  Python sorted is the
stable sort by the key, which insertion sort with a non-strict comparison
implements. -/
def CustomNodeFile.node_used_in (self : CustomNodeFile) : List FileInfo :=
  List.insertionSort (fun a b => a.name ≤ b.name) self.used_in

/-- Embeds `ScriptFile.node_used_in` (models.py line 138). -/
def ScriptFile.node_used_in (_ : ScriptFile) : List FileInfo := []

/-! ### builder.py: file construction -/

/-- Embeds `_create_custom_node` (builder.py line 84).  The source
evaluates `_get_nodes` first, then the constructor keyword arguments left
to right (uuid, name, ..., groups); the same order is kept here for the
fallible steps. -/
def _create_custom_node (f : DynFile) : Except String (Option CustomNodeFile) :=
  match _get_file_content f with
  | none => .ok none
  | some c => do
      let nodes ← _get_nodes c
      let uid ← _file_node_uuid c
      let nm ← get_node_name c
      let groups ← _get_groups c nodes
      .ok (some { uuid := uid, name := nm, file := f, nodes := nodes,
                  dependencies := _node_dependencies c, groups := groups,
                  categories := _custom_categories c, used_in := [] })

/-- Embeds `get_custom_file_nodes` (builder.py line 100): build every file
(the list comprehension stops at the first uncaught exception), then drop
the None results. -/
def get_custom_file_nodes (files : List DynFile) :
    Except String (List CustomNodeFile) := do
  let nodes ← mapE _create_custom_node files
  .ok (nodes.filterMap id)

/-- Embeds `_create_script` (builder.py line 105). -/
def _create_script (f : DynFile) : Except String (Option ScriptFile) :=
  match _get_file_content f with
  | none => .ok none
  | some c => do
      let nodes ← _get_nodes c
      let uid ← _file_node_uuid c
      let nm ← get_node_name c
      let groups ← _get_groups c nodes
      .ok (some { uuid := uid, name := nm, file := f, nodes := nodes,
                  dependencies := _node_dependencies c, groups := groups })

/-- Embeds `get_script_nodes` (builder.py line 120). -/
def get_script_nodes (files : List DynFile) :
    Except String (List ScriptFile) := do
  let scripts ← mapE _create_script files
  .ok (scripts.filterMap id)

/-! ### service.py -/

/-- Bool-valued suffix test on character lists. -/
def listEndsWith (l tail : List Char) : Bool :=
  listStarts tail.reverse l.reverse

/-- Embeds `path.name.lower().endswith(...)`: character-wise ASCII
lowercasing followed by the suffix test.  Note the compared suffix has no
leading dot in the source. -/
def lowerEndsWith (s : String) (tail : String) : Bool :=
  listEndsWith (s.data.map Char.toLower) tail.data

/-- Embeds `_is_custom_file` (service.py line 31). -/
def _is_custom_file (f : DynFile) : Bool :=
  lowerEndsWith f.name "dyf"

/-- Embeds `_is_script_file` (service.py line 66). -/
def _is_script_file (f : DynFile) : Bool :=
  lowerEndsWith f.name "dyn"

/-- Embeds `_is_dynamo_file` (service.py line 88). -/
def _is_dynamo_file (f : DynFile) : Bool :=
  _is_script_file f || _is_custom_file f

/-- Embeds `_get_node_files` (service.py line 41). -/
def _get_node_files (files : List DynFile) : List DynFile :=
  files.filter _is_custom_file

/-- Appends a value to the bucket of key `k`, creating the bucket at the
end when the key is new (Python dict insertion order). -/
def dictAppend : List (String × List α) → String → α → List (String × List α)
  | [], k, v => [(k, [v])]
  | (k', vs) :: rest, k, v =>
      if k' = k then (k', vs ++ [v]) :: rest
      else (k', vs) :: dictAppend rest k v

/-- Embeds `_node_dict` (service.py line 10): group the nodes by uuid. -/
def _node_dict (uuidOf : α → String) (nodes : List α) :
    List (String × List α) :=
  nodes.foldl (fun d n => dictAppend d (uuidOf n) n) []

/-- Embeds `_unique_custom` (service.py line 27): keep only the uuids with
exactly one file, mapped to that file. -/
def _unique_custom (d : List (String × List CustomNodeFile)) :
    List (String × CustomNodeFile) :=
  d.filterMap (fun p =>
    match p.2 with
    | [n] => some (p.1, n)
    | _ => none)

/-- Embeds `_custom_dict` (service.py line 45). -/
def _custom_dict (files : List DynFile) :
    Except String (List (String × List CustomNodeFile)) := do
  let nodes ← get_custom_file_nodes (_get_node_files files)
  .ok (_node_dict CustomNodeFile.uuid nodes)

/-- Embeds `_get_custom_node_dict` (service.py line 51);
`_print_not_unique_nodes` only logs and is omitted. -/
def _get_custom_node_dict (files : List DynFile) :
    Except String (List (String × CustomNodeFile)) := do
  let d ← _custom_dict files
  .ok (_unique_custom d)

/-- Embeds the Linker `add_used_in` (service.py line 57): the combined
candidate list is scripts then custom nodes; each custom node is updated
against it; `ScriptFile.add_used_in` is a no-op, so the scripts are
returned unchanged by the caller. -/
def add_used_in (scripts : List ScriptFile)
    (custom_nodes : List CustomNodeFile) : List CustomNodeFile :=
  let all_nodes := scripts.map ScriptFile.info ++ custom_nodes.map CustomNodeFile.info
  custom_nodes.map (fun c => c.add_used_in all_nodes)

/-- Embeds `script_n_custom_nodes` (service.py line 92).  Note that the
scripts are built from every file of the filtered batch, not only from the
`.dyn` files. -/
def script_n_custom_nodes (files : List DynFile) :
    Except String (List ScriptFile × List CustomNodeFile) := do
  let files := files.filter _is_dynamo_file
  let custom_dict ← _get_custom_node_dict files
  let customs := custom_dict.map Prod.snd
  let scripts ← get_script_nodes files
  .ok (scripts, add_used_in scripts customs)

/-! ### service.py: graph projector -/

/-- A DynamoFile of either concrete class, as passed to the projector. -/
inductive DynamoFileE where
  | script : ScriptFile → DynamoFileE
  | custom : CustomNodeFile → DynamoFileE

def DynamoFileE.dependencies : DynamoFileE → List String
  | .script s => s.dependencies
  | .custom c => c.dependencies

/-- Dispatch of the abstract `node_used_in`. -/
def DynamoFileE.node_used_in : DynamoFileE → List FileInfo
  | .script s => s.node_used_in
  | .custom c => c.node_used_in

/-- Embeds the GraphElement dataclass (service.py line 100). -/
structure GraphElement where
  node : DynamoFileE
  dependencies : List CustomNodeFile
  used_in : List FileInfo

/-- Embeds `dependency_of` (service.py line 107). -/
def dependency_of (source : DynamoFileE) (library : List CustomNodeFile) :
    List CustomNodeFile :=
  library.filter (fun n => source.dependencies.contains n.uuid)

/-- Embeds `graph_elements` (service.py line 111). -/
def graph_elements (source : DynamoFileE) (library : List CustomNodeFile) :
    GraphElement :=
  ⟨source, dependency_of source library, source.node_used_in⟩

/-! ### Concrete documents and files used by the claim theorems -/

/-- A minimal well-formed custom-node file: valid JSON, Uuid and Name
present, no View, no Annotations. -/
def exDyf : DynFile :=
  ⟨"id-1", "Node.dyf", "dyf",
   some [("Uuid", JVal.str "u-1"), ("Name", JVal.str "MyNode")]⟩

/-- A well-formed script file. -/
def fGood : DynFile :=
  ⟨"id-g", "Good.dyn", "dyn",
   some [("Uuid", JVal.str "ug"), ("Name", JVal.str "G1")]⟩

/-- A second well-formed script file. -/
def fGood2 : DynFile :=
  ⟨"id-g2", "Good2.dyn", "dyn",
   some [("Uuid", JVal.str "ug2"), ("Name", JVal.str "G2")]⟩

/-- A file whose JSON parses but which lacks the required top-level Uuid. -/
def fBad : DynFile :=
  ⟨"id-b", "Bad.dyn", "dyn", some [("Name", JVal.str "NoUuid")]⟩

/-- A file whose contents are not parsable as JSON. -/
def fMal : DynFile := ⟨"id-m", "Mal.dyn", "dyn", none⟩

/-- A document with no View section but with one Annotations entry. -/
def cAnn : Record :=
  [("Uuid", JVal.str "u3"), ("Name", JVal.str "N3"),
   ("Annotations",
    JVal.arr [JVal.obj [("Id", JVal.str "g1"), ("Title", JVal.str "G")]])]

/-- The file wrapping the document cAnn. -/
def fAnn : DynFile := ⟨"id-3", "Ann.dyf", "dyf", some cAnn⟩

/-- The file entity that parsing fAnn produces. -/
def cfAnn : CustomNodeFile :=
  { uuid := "u3", name := "N3", file := fAnn, nodes := [],
    dependencies := [],
    groups := [⟨"g1", JVal.str "G",
                [("Id", JVal.str "g1"), ("Title", JVal.str "G")], []⟩],
    categories := [], used_in := [] }

/-- A node record matching the CodeNodeBuilder discriminators. -/
def rCode : Record :=
  [("ConcreteType", JVal.str pythonConcreteType),
   ("NodeType", JVal.str "PythonScriptNode"), ("Id", JVal.str "n1")]

/-- A node record whose FunctionSignature is made of the letter z: shaped
like a GUID but with no hexadecimal digit at all. -/
def rGuidZ : Record :=
  [("ConcreteType", JVal.str customConcreteType),
   ("FunctionType", JVal.str "Graph"),
   ("FunctionSignature", JVal.str "zzzzzzzz-zzzz-zzzz-zzzz-zzzzzzzzzzzz")]

/-- A node record whose FunctionSignature is a GUID followed by trailing
extra characters. -/
def rGuidTrail : Record :=
  [("ConcreteType", JVal.str customConcreteType),
   ("FunctionType", JVal.str "Graph"),
   ("FunctionSignature", JVal.str "aaaaaaaa-bbbb-cccc-dddd-eeeeeeeeeeeeTRAILING")]

/-- A node record whose FunctionSignature is an ordinary GUID. -/
def rGuidOk : Record :=
  [("ConcreteType", JVal.str customConcreteType),
   ("FunctionType", JVal.str "Graph"),
   ("FunctionSignature", JVal.str "aaaaaaaa-bbbb-cccc-dddd-eeeeeeeeeeee")]

/-- A node record with the custom ConcreteType and FunctionType Graph but
no FunctionSignature key. -/
def rNoSig : Record :=
  [("ConcreteType", JVal.str customConcreteType),
   ("NodeType", JVal.str "FunctionNode"),
   ("FunctionType", JVal.str "Graph"), ("Id", JVal.str "n9")]

/-- A parsed script file declaring one dependency, for linker claims. -/
def sF : ScriptFile :=
  { uuid := "us", name := "S", file := fGood, nodes := [],
    dependencies := ["u-c"], groups := [] }

/-- A parsed custom-node file with the depended-on uuid. -/
def cC : CustomNodeFile :=
  { uuid := "u-c", name := "C", file := exDyf, nodes := [],
    dependencies := [], groups := [], categories := [], used_in := [] }

instance : IsTotal FileInfo (fun a b => a.name ≤ b.name) :=
  ⟨fun a b => le_total a.name b.name⟩

instance : IsTrans FileInfo (fun a b => a.name ≤ b.name) :=
  ⟨fun _ _ _ h1 h2 => le_trans h1 h2⟩

/-! ### Helper lemmas -/

theorem bind_ok_eq (a : α) (f : α → Except ε β) :
    (Except.ok a >>= f) = f a := rfl

theorem bind_error_eq (e : ε) (f : α → Except ε β) :
    ((Except.error e : Except ε α) >>= f) = Except.error e := rfl

theorem mapE_ok_length {f : α → Except ε β} {l : List α} {ys : List β}
    (h : mapE f l = .ok ys) : ys.length = l.length := by
  induction l generalizing ys with
  | nil =>
      simp only [mapE] at h
      cases h
      rfl
  | cons x xs ih =>
      simp only [mapE] at h
      cases hfx : f x with
      | error e => rw [hfx] at h; cases h
      | ok y =>
          rw [hfx] at h
          cases hm : mapE f xs with
          | error e => rw [hm] at h; cases h
          | ok ys' =>
              rw [hm] at h
              cases h
              simp [ih hm]

/-- Claim C1 evaluation at the failing input: a batch holding one valid
`.dyf` file.  `script_n_custom_nodes` returns the file both as a
ScriptFile in the scripts collection and as a CustomNodeFile, because the
scripts are built from every filtered file, not only from the `.dyn`
ones. -/
theorem claim_C1_dyf_yields_script :
    (script_n_custom_nodes [exDyf]).map
      (fun p => (p.1.map (fun s => s.file.name), p.2.map (fun c => c.file.name)))
      = .ok (["Node.dyf"], ["Node.dyf"]) := rfl

/-- Claim C2 evaluation at the failing input: a batch of three parsable
files whose middle one lacks the required top-level Uuid.  The error
raised by `_file_node_uuid` is not caught anywhere: it reaches the caller
of `get_script_nodes`, of `get_custom_file_nodes` and of
`script_n_custom_nodes`, and the remaining files of the batch are lost
with it. -/
theorem claim_C2_missing_field_aborts_batch :
    get_script_nodes [fGood, fBad, fGood2] = .error "Content has no UUID" ∧
    get_custom_file_nodes [fGood, fBad, fGood2] = .error "Content has no UUID" ∧
    script_n_custom_nodes [fGood, fBad, fGood2] = .error "Content has no UUID" :=
  ⟨rfl, rfl, rfl⟩

/-- Claim C3 counterexample: a document with no top-level View section but
one Annotations entry parses to a file with zero nodes and ONE group, so
the groups list of such a file is not always empty. -/
theorem claim_C3_counterexample :
    (_create_custom_node fAnn).map
      (fun o => o.map (fun cf => (cf.nodes.length, cf.groups.length)))
      = .ok (some (0, 1)) := rfl

/-- Claim C4 counterexample: a FunctionSignature made only of the letter z
(no hexadecimal digit) and one with trailing extra characters are both
accepted by the CustomNodeBuilder match, because GUID_PATTERN uses the
class `[a-zA-Z0-9]` and `re.match` anchors only at the start. -/
theorem claim_C4_counterexample :
    is_builder_for BuilderKind.customNode rGuidZ = .ok true ∧
    is_builder_for BuilderKind.customNode rGuidTrail = .ok true :=
  ⟨rfl, rfl⟩

/-- Computation of `is_builder_for` for the CodeNodeBuilder lookup. -/
theorem is_builder_for_code (r : Record) :
    is_builder_for BuilderKind.codeNode r =
      .ok (fieldEqStr r "ConcreteType" pythonConcreteType &&
           fieldEqStr r "NodeType" "PythonScriptNode") := by
  rw [is_builder_for, lookupOf]
  cases h1 : fieldEqStr r "ConcreteType" pythonConcreteType <;>
    cases h2 : fieldEqStr r "NodeType" "PythonScriptNode" <;>
      simp [allChecks, is_node_value, h1, h2]

/-- Computation of `is_builder_for` for the DefaultNodeBuilder lookup:
key presence of ConcreteType and NodeType. -/
theorem is_builder_for_default (r : Record) :
    is_builder_for BuilderKind.defaultNode r =
      .ok ((dictGet r "ConcreteType").isSome && (dictGet r "NodeType").isSome) := by
  rw [is_builder_for, lookupOf]
  cases h1 : (dictGet r "ConcreteType").isSome <;>
    cases h2 : (dictGet r "NodeType").isSome <;>
      simp [allChecks, is_node_value, h1, h2]

/-- Registry construction computes to code, custom, default, in that
order. -/
theorem create_builder_eq :
    _create_builder =
      .ok [BuilderKind.codeNode, BuilderKind.customNode, BuilderKind.defaultNode] := rfl

/-- The first-match loop runs over the ordered registry list. -/
theorem node_builder_run (r : Record) :
    node_builder r =
      firstBuilder r [BuilderKind.codeNode, BuilderKind.customNode, BuilderKind.defaultNode] := rfl

/-- Claim C5: classification is first-match over the strictly ordered
registry with the fallback last; a record satisfying the CodeNodeBuilder
discriminators resolves to the code builder and never to the
default/fallback builder, although the fallback also matches the
record. -/
theorem claim_C5_specific_beats_fallback (r : Record)
    (h : is_builder_for BuilderKind.codeNode r = .ok true) :
    node_builder r = .ok BuilderKind.codeNode ∧
    is_builder_for BuilderKind.defaultNode r = .ok true := by
  constructor
  · rw [node_builder_run, firstBuilder, h]
  · rw [is_builder_for_code] at h
    have hb : (fieldEqStr r "ConcreteType" pythonConcreteType &&
        fieldEqStr r "NodeType" "PythonScriptNode") = true := by
      cases hv : (fieldEqStr r "ConcreteType" pythonConcreteType &&
          fieldEqStr r "NodeType" "PythonScriptNode")
      · rw [hv] at h; cases h
      · rfl
    rw [Bool.and_eq_true] at hb
    obtain ⟨h1, h2⟩ := hb
    have p1 : (dictGet r "ConcreteType").isSome = true := by
      unfold fieldEqStr at h1
      cases hv : dictGet r "ConcreteType" with
      | none => rw [hv] at h1; cases h1
      | some jv => simp
    have p2 : (dictGet r "NodeType").isSome = true := by
      unfold fieldEqStr at h2
      cases hv : dictGet r "NodeType" with
      | none => rw [hv] at h2; cases h2
      | some jv => simp
    rw [is_builder_for_default, p1, p2]
    rfl

/-- Claim C5 witness: the concrete record rCode satisfies the code
discriminators and resolves to the code builder, not the fallback. -/
theorem claim_C5_witness :
    node_builder rCode = .ok BuilderKind.codeNode ∧
    is_builder_for BuilderKind.defaultNode rCode = .ok true :=
  claim_C5_specific_beats_fallback rCode rfl

/-- Computation of `is_builder_for` for the CustomNodeBuilder lookup when
the FunctionSignature field holds a string. -/
theorem is_builder_for_custom (r : Record) (s : String)
    (hs : dictGet r "FunctionSignature" = some (JVal.str s)) :
    is_builder_for BuilderKind.customNode r =
      .ok (fieldEqStr r "ConcreteType" customConcreteType &&
           (fieldEqStr r "FunctionType" "Graph" && guidMatch s)) := by
  rw [is_builder_for, lookupOf]
  cases h1 : fieldEqStr r "ConcreteType" customConcreteType <;>
    cases h2 : fieldEqStr r "FunctionType" "Graph" <;>
      cases h3 : guidMatch s <;>
        simp [allChecks, is_node_value, h1, h2, h3, hs]

/-- Claim C4 (amended): a node record with a string FunctionSignature is
classified as a CustomNode exactly when its ConcreteType equals the fixed
custom-function type string, its FunctionType equals Graph, and its
FunctionSignature has a PREFIX matching 8-4-4-4-12 groups drawn from the
class `[a-zA-Z0-9]` (alphanumeric, not restricted to hexadecimal digits;
trailing extra characters are allowed); on a match the raw
FunctionSignature value becomes the custom_uuid of the built node. -/
theorem claim_C4_guid_classification (r : Record) (s : String)
    (hs : dictGet r "FunctionSignature" = some (JVal.str s)) :
    (is_builder_for BuilderKind.customNode r = .ok true ↔
      (fieldEqStr r "ConcreteType" customConcreteType = true ∧
       fieldEqStr r "FunctionType" "Graph" = true ∧
       guidMatch s = true)) ∧
    (∀ views n, buildWith BuilderKind.customNode r views = .ok n →
      n.customUuid? = some s) := by
  constructor
  · rw [is_builder_for_custom r s hs]
    constructor
    · intro h
      rw [Except.ok.injEq] at h
      rw [Bool.and_eq_true, Bool.and_eq_true] at h
      exact ⟨h.1, h.2.1, h.2.2⟩
    · rintro ⟨h1, h2, h3⟩
      rw [h1, h2, h3]
      rfl
  · intro views n h
    unfold buildWith at h
    cases hb : buildBase r views with
    | error e =>
        rw [hb, bind_error_eq] at h
        cases h
    | ok base =>
        rw [hb, bind_ok_eq] at h
        rw [hs] at h
        rw [Except.ok.injEq] at h
        rw [← h]
        rfl

/-- Claim C4 witness: a concrete record with an ordinary GUID signature is
classified as a CustomNode. -/
theorem claim_C4_witness :
    is_builder_for BuilderKind.customNode rGuidOk = .ok true :=
  (claim_C4_guid_classification rGuidOk "aaaaaaaa-bbbb-cccc-dddd-eeeeeeeeeeee"
    rfl).1.mpr ⟨rfl, rfl, rfl⟩

/-- Unfolding of `_create_custom_node` on a file whose JSON parsed. -/
theorem create_custom_some {f : DynFile} {c : Record} (hc : f.content = some c) :
    _create_custom_node f = (do
      let nodes ← _get_nodes c
      let uid ← _file_node_uuid c
      let nm ← get_node_name c
      let groups ← _get_groups c nodes
      .ok (some { uuid := uid, name := nm, file := f, nodes := nodes,
                  dependencies := _node_dependencies c, groups := groups,
                  categories := _custom_categories c, used_in := [] })) := by
  unfold _create_custom_node _get_file_content
  rw [hc]

/-- With no View key the node list is empty (builder.py line 51). -/
theorem get_nodes_no_view {c : Record} (hv : dictGet c "View" = none) :
    _get_nodes c = .ok [] := by
  unfold _get_nodes
  rw [hv]
  rfl

/-- With no Annotations key the groups list is empty. -/
theorem get_groups_no_ann {c : Record} (h : dictGet c "Annotations" = none)
    (nodes : List DynamoNode) : _get_groups c nodes = .ok [] := by
  unfold _get_groups
  rw [h]
  rfl

/-- With an Annotations array, a successful group extraction yields one
group per entry. -/
theorem get_groups_len {c : Record} {anns : List JVal}
    (h : dictGet c "Annotations" = some (JVal.arr anns))
    (nodes : List DynamoNode) (gs : List AnnotationGroup)
    (hok : _get_groups c nodes = .ok gs) : gs.length = anns.length := by
  unfold _get_groups at hok
  rw [h] at hok
  simp only [Option.getD_some, pyLen, bind_ok_eq] at hok
  by_cases hz : anns.length = 0
  · rw [if_pos hz] at hok
    rw [Except.ok.injEq] at hok
    rw [← hok, hz]
    rfl
  · rw [if_neg hz] at hok
    simp only [pyIter, bind_ok_eq] at hok
    exact mapE_ok_length hok

/-- Claim C3 (amended): a document without a top-level View section parses
(when its remaining fields build) to a file entity with an empty nodes
list; the groups list, however, is built from the top-level Annotations
entry independently of the View section — absent Annotations give zero
groups, an Annotations array gives one group per entry, even without a
View section. -/
theorem claim_C3_no_view (f : DynFile) (c : Record) (cf : CustomNodeFile)
    (hc : f.content = some c) (hv : dictGet c "View" = none)
    (hok : _create_custom_node f = .ok (some cf)) :
    cf.nodes = [] ∧
    (dictGet c "Annotations" = none → cf.groups = []) ∧
    (∀ anns, dictGet c "Annotations" = some (JVal.arr anns) →
      cf.groups.length = anns.length) := by
  rw [create_custom_some hc, get_nodes_no_view hv, bind_ok_eq] at hok
  cases hu : _file_node_uuid c with
  | error e => rw [hu, bind_error_eq] at hok; cases hok
  | ok uid =>
  rw [hu, bind_ok_eq] at hok
  cases hn : get_node_name c with
  | error e => rw [hn, bind_error_eq] at hok; cases hok
  | ok nm =>
  rw [hn, bind_ok_eq] at hok
  cases hg : _get_groups c [] with
  | error e => rw [hg, bind_error_eq] at hok; cases hok
  | ok gs =>
  rw [hg, bind_ok_eq, Except.ok.injEq, Option.some.injEq] at hok
  subst hok
  refine ⟨rfl, ?_, ?_⟩
  · intro hann
    have h0 := get_groups_no_ann hann ([] : List DynamoNode)
    rw [h0, Except.ok.injEq] at hg
    exact hg.symm
  · intro anns hann
    exact get_groups_len hann [] gs hg

/-- Claim C3 witness: the amended statement applied to the concrete
document cAnn, whose single Annotations entry yields a single group. -/
theorem claim_C3_witness :
    cfAnn.nodes = [] ∧
    (dictGet cAnn "Annotations" = none → cfAnn.groups = []) ∧
    (∀ anns, dictGet cAnn "Annotations" = some (JVal.arr anns) →
      cfAnn.groups.length = anns.length) :=
  claim_C3_no_view fAnn cAnn cfAnn rfl rfl rfl

theorem mapE_cons (f : α → Except ε β) (x : α) (xs : List α) :
    mapE f (x :: xs) = (do
      let y ← f x
      let ys ← mapE f xs
      .ok (y :: ys)) := rfl

/-- Files whose JSON does not parse contribute nothing and do not stop the
batch. -/
theorem gcfn_cons_none {f : DynFile} {fs : List DynFile} (hf : f.content = none) :
    get_custom_file_nodes (f :: fs) = get_custom_file_nodes fs := by
  have h1 : _create_custom_node f = .ok none := by
    unfold _create_custom_node _get_file_content
    rw [hf]
  unfold get_custom_file_nodes
  rw [mapE_cons, h1, bind_ok_eq]
  cases hm : mapE _create_custom_node fs with
  | error e => simp only [hm, bind_error_eq]
  | ok ys => simp only [hm, bind_ok_eq]; rfl

/-- Files that build successfully contribute exactly their entity. -/
theorem gcfn_cons_some {f : DynFile} {fs : List DynFile} {cf : CustomNodeFile}
    (hf : _create_custom_node f = .ok (some cf)) :
    get_custom_file_nodes (f :: fs) =
      (get_custom_file_nodes fs).map (fun l => cf :: l) := by
  unfold get_custom_file_nodes
  rw [mapE_cons, hf, bind_ok_eq]
  cases hm : mapE _create_custom_node fs with
  | error e => simp only [hm, bind_error_eq]; rfl
  | ok ys => simp only [hm, bind_ok_eq]; rfl

/-- A successful build implies the JSON of the file parsed. -/
theorem create_some_content {f : DynFile} {cf : CustomNodeFile}
    (hf : _create_custom_node f = .ok (some cf)) : f.content.isSome = true := by
  cases hc : f.content with
  | none => simp [_create_custom_node, _get_file_content, hc] at hf
  | some c => rfl

/-- Induction core for claim C6: when every parsable file of the batch
builds, the batch succeeds with one entity per parsable file. -/
theorem gcfn_total (files : List DynFile)
    (h : ∀ f ∈ files, f.content = none ∨
      ∃ cf, _create_custom_node f = .ok (some cf)) :
    ∃ l, get_custom_file_nodes files = .ok l ∧
      l.length = (files.filter (fun f => f.content.isSome)).length := by
  induction files with
  | nil => exact ⟨[], rfl, rfl⟩
  | cons f fs ih =>
      obtain ⟨l, hok, hlen⟩ := ih (fun g hg => h g (List.mem_cons_of_mem f hg))
      rcases h f (List.mem_cons_self f fs) with hnone | ⟨cf, hcf⟩
      · refine ⟨l, ?_, ?_⟩
        · rw [gcfn_cons_none hnone]
          exact hok
        · rw [hlen, List.filter_cons]
          simp [hnone]
      · refine ⟨cf :: l, ?_, ?_⟩
        · rw [gcfn_cons_some hcf, hok]
          rfl
        · have hsome : f.content.isSome = true := create_some_content hcf
          rw [List.filter_cons]
          simp [hsome, hlen]

/-- Claim C6: in a batch where some files are not parsable as JSON, those
files (and exactly those) yield None and are skipped, every other file
yields an entity, and no error reaches the caller. -/
theorem claim_C6_malformed_json_recovered (files : List DynFile)
    (h : ∀ f ∈ files, f.content = none ∨
      ∃ cf, _create_custom_node f = .ok (some cf)) :
    ∃ l, get_custom_file_nodes files = .ok l ∧
      l.length = (files.filter (fun f => f.content.isSome)).length ∧
      ∀ f ∈ files, f.content = none → _create_custom_node f = .ok none := by
  obtain ⟨l, h1, h2⟩ := gcfn_total files h
  refine ⟨l, h1, h2, ?_⟩
  intro f _ hf
  unfold _create_custom_node _get_file_content
  rw [hf]

/-- Claim C6 witness: a batch of three files of which one holds invalid
JSON yields exactly two parsed entities with no error. -/
theorem claim_C6_witness :
    ∃ l, get_custom_file_nodes [fGood, fMal, fGood2] = .ok l ∧
      l.length = ([fGood, fMal, fGood2].filter (fun f => f.content.isSome)).length ∧
      ∀ f ∈ [fGood, fMal, fGood2], f.content = none →
        _create_custom_node f = .ok none :=
  claim_C6_malformed_json_recovered [fGood, fMal, fGood2] (by
    intro f hf
    rcases List.mem_cons.mp hf with h1 | hf
    · subst h1; right; exact ⟨_, rfl⟩
    rcases List.mem_cons.mp hf with h2 | hf
    · subst h2; left; rfl
    rcases List.mem_cons.mp hf with h3 | hf
    · subst h3; right; exact ⟨_, rfl⟩
    · cases hf)

theorem fileEq_refl (n : FileInfo) : fileEq n n = true := by
  simp [fileEq]

/-- Zeta-free characterization of `add_used_in` for rewriting. -/
theorem add_used_in_eq (c : CustomNodeFile) (A : List FileInfo) :
    c.add_used_in A =
      (if ((A.filter (fun n => n.dependencies.contains c.uuid)).filter
            (fun n => !c.used_in.any (fun u => fileEq u n))).length = 0
       then c
       else { c with used_in := (c.used_in ++
          (A.filter (fun n => n.dependencies.contains c.uuid)).filter
            (fun n => !c.used_in.any (fun u => fileEq u n))) }) := rfl

/-- Linking never changes the identity fields of a file. -/
theorem add_used_in_info (c : CustomNodeFile) (A : List FileInfo) :
    (c.add_used_in A).info = c.info := by
  rw [add_used_in_eq]
  split <;> rfl

theorem add_used_in_uuid (c : CustomNodeFile) (A : List FileInfo) :
    (c.add_used_in A).uuid = c.uuid := by
  rw [add_used_in_eq]
  split <;> rfl

/-- Every candidate declaring a dependency on c is present (by dataclass
equality) in the used_in list after one linking pass. -/
theorem mem_after_add (c : CustomNodeFile) (A : List FileInfo) (n : FileInfo)
    (hn : n ∈ A) (hdep : n.dependencies.contains c.uuid = true) :
    (c.add_used_in A).used_in.any (fun u => fileEq u n) = true := by
  rw [add_used_in_eq]
  by_cases hmem : c.used_in.any (fun u => fileEq u n) = true
  · split
    · exact hmem
    · show (c.used_in ++ _).any _ = true
      rw [List.any_append, hmem]
      rfl
  · have hns : n ∈ (A.filter (fun n => n.dependencies.contains c.uuid)).filter
        (fun n => !c.used_in.any (fun u => fileEq u n)) := by
      rw [List.mem_filter, List.mem_filter]
      refine ⟨⟨hn, hdep⟩, ?_⟩
      simp only [Bool.not_eq_true] at hmem
      rw [hmem]
      rfl
    split
    · rename_i hlen
      exfalso
      rw [List.length_eq_zero] at hlen
      rw [hlen] at hns
      exact (List.not_mem_nil n) hns
    · show (c.used_in ++ _).any _ = true
      rw [List.any_append]
      have : ((A.filter (fun n => n.dependencies.contains c.uuid)).filter
          (fun n => !c.used_in.any (fun u => fileEq u n))).any
            (fun u => fileEq u n) = true :=
        List.any_eq_true.mpr ⟨n, hns, fileEq_refl n⟩
      rw [this, Bool.or_true]

/-- One linking pass saturates: a second pass with the same candidates
changes nothing. -/
theorem add_used_in_twice (c : CustomNodeFile) (A : List FileInfo) :
    (c.add_used_in A).add_used_in A = c.add_used_in A := by
  have hall : ∀ n ∈ A.filter (fun n =>
      n.dependencies.contains (c.add_used_in A).uuid),
      (c.add_used_in A).used_in.any (fun u => fileEq u n) = true := by
    intro n hn
    rw [add_used_in_uuid] at hn
    rw [List.mem_filter] at hn
    exact mem_after_add c A n hn.1 hn.2
  have hnil : ((A.filter (fun n =>
      n.dependencies.contains (c.add_used_in A).uuid)).filter
      (fun n => !(c.add_used_in A).used_in.any (fun u => fileEq u n))) = [] := by
    rw [List.filter_eq_nil_iff]
    intro n hn
    simp [hall n hn]
  conv_lhs => rw [add_used_in_eq (c.add_used_in A) A]
  rw [hnil]
  rfl

/-- Claim C7: linking is idempotent — running the Linker twice over the
same scripts and custom nodes leaves every used_in list equal to the
result of running it once, because a file is appended only when it
declares the dependency and is not already present. -/
theorem claim_C7_linker_idempotent (scripts : List ScriptFile)
    (customs : List CustomNodeFile) :
    add_used_in scripts (add_used_in scripts customs) =
      add_used_in scripts customs := by
  unfold add_used_in
  have hinfo : (customs.map (fun c => c.add_used_in
      (scripts.map ScriptFile.info ++ customs.map CustomNodeFile.info))).map
        CustomNodeFile.info = customs.map CustomNodeFile.info := by
    rw [List.map_map]
    apply List.map_congr_left
    intro a _
    exact add_used_in_info a _
  rw [hinfo, List.map_map]
  apply List.map_congr_left
  intro a _
  exact add_used_in_twice a _

/-- Claim C8: symmetry of the dependency/usage relation — after linking,
every file F of the batch that declares a dependency on the uuid of a
custom-node file D appears (by dataclass equality) in the node_used_in
list of the linked D. -/
theorem claim_C8_link_symmetry (scripts : List ScriptFile)
    (customs : List CustomNodeFile) (D : CustomNodeFile) (F : FileInfo)
    (hD : D ∈ customs)
    (hF : F ∈ scripts.map ScriptFile.info ++ customs.map CustomNodeFile.info)
    (hdep : F.dependencies.contains D.uuid = true) :
    ∃ D2 ∈ add_used_in scripts customs,
      D2.uuid = D.uuid ∧
      D2.node_used_in.any (fun u => fileEq u F) = true := by
  refine ⟨D.add_used_in
    (scripts.map ScriptFile.info ++ customs.map CustomNodeFile.info), ?_, ?_, ?_⟩
  · unfold add_used_in
    exact List.mem_map_of_mem _ hD
  · exact add_used_in_uuid D _
  · have h := mem_after_add D
      (scripts.map ScriptFile.info ++ customs.map CustomNodeFile.info) F hF hdep
    rw [List.any_eq_true] at h ⊢
    obtain ⟨u, hu, hequ⟩ := h
    refine ⟨u, ?_, hequ⟩
    rw [CustomNodeFile.node_used_in]
    exact (List.mem_insertionSort _).mpr hu

/-- Claim C8 witness: a concrete script depending on the concrete custom
node appears in its node_used_in after linking. -/
theorem claim_C8_witness :
    ∃ D2 ∈ add_used_in [sF] [cC],
      D2.uuid = cC.uuid ∧
      D2.node_used_in.any (fun u => fileEq u sF.info) = true :=
  claim_C8_link_symmetry [sF] [cC] cC sF.info (by simp) (by simp) rfl

/-- Claim C9: the graph projection returns the selected file unchanged,
its dependencies as exactly the library files whose uuid is declared by
the selected file (in library iteration order, i.e. the library filter),
and its used_in as node_used_in — a permutation of the used_in list
sorted by name for a CustomNodeFile and always empty for a ScriptFile;
the projection is a pure function of its arguments. -/
theorem claim_C9_graph_projection (source : DynamoFileE)
    (library : List CustomNodeFile) :
    (graph_elements source library).node = source ∧
    (graph_elements source library).dependencies =
      library.filter (fun n => source.dependencies.contains n.uuid) ∧
    (∀ n, n ∈ (graph_elements source library).dependencies ↔
      (n ∈ library ∧ source.dependencies.contains n.uuid = true)) ∧
    (graph_elements source library).used_in = source.node_used_in ∧
    (∀ s, source = DynamoFileE.script s →
      (graph_elements source library).used_in = []) ∧
    (∀ c, source = DynamoFileE.custom c →
      ((graph_elements source library).used_in.Perm c.used_in ∧
       List.Sorted (fun a b : FileInfo => a.name ≤ b.name)
         (graph_elements source library).used_in)) := by
  refine ⟨rfl, rfl, ?_, rfl, ?_, ?_⟩
  · intro n
    exact List.mem_filter
  · intro s hs
    subst hs
    rfl
  · intro c hc
    subst hc
    constructor
    · exact List.perm_insertionSort _ _
    · exact List.sorted_insertionSort _ _

/-- Claim C9 witness: the projection applied to the concrete custom node
returns it unchanged as the root of the neighborhood. -/
theorem claim_C9_witness :
    (graph_elements (DynamoFileE.custom cC) [cC]).node = DynamoFileE.custom cC :=
  (claim_C9_graph_projection (DynamoFileE.custom cC) [cC]).1

/-- Claim C10: on a record carrying the custom ConcreteType and
FunctionType Graph but no FunctionSignature key, classification raises
(the GUID pattern is applied to None) instead of falling back to the
default builder, which does match the record. -/
theorem claim_C10_classifier_not_total :
    node_builder rNoSig = .error "TypeError: expected string or bytes-like object" ∧
    is_builder_for BuilderKind.defaultNode rNoSig = .ok true :=
  ⟨rfl, rfl⟩

end DynDep
